import Mathlib

/-!
Verification development for the explanation-assembly and validated-generation
pipeline of the mortality-report repository.  Each Python function of interest
is shallowly embedded as an executable Lean definition over `List Char`,
`String`, `ℚ`, `ℤ`, `Option` and `Except`; theorems about the claims follow
the definitions.
-/

namespace SOA

/-! ## Character helpers (ASCII case folding, as used by `re.IGNORECASE`) -/

/-- ASCII lower-casing of a character (Python `re.IGNORECASE` folding for the
ASCII patterns of `ReportValidator.PROHIBITED_PATTERNS`). -/
def lowChar (c : Char) : Char :=
  if 65 ≤ c.toNat ∧ c.toNat ≤ 90 then Char.ofNat (c.toNat + 32) else c

/-- Case-insensitive character equality. -/
def ciEq (a b : Char) : Bool := lowChar a == lowChar b

/-- Decimal digit test (regex `\d` on ASCII). -/
def isDig (c : Char) : Bool := 48 ≤ c.toNat && c.toNat ≤ 57

/-! ## Generic matching primitives -/

/-- Case-insensitively strip `pat` from the front of `xs`; `some rest` when
`pat` matches, consuming exactly `pat.length` characters. -/
def stripCI : List Char → List Char → Option (List Char)
  | [], rest => some rest
  | _ :: _, [] => none
  | p :: ps, c :: cs => if ciEq p c then stripCI ps cs else none

/-- Case-sensitively strip `pat` from the front of `xs`. -/
def stripCS : List Char → List Char → Option (List Char)
  | [], rest => some rest
  | _ :: _, [] => none
  | p :: ps, c :: cs => if p == c then stripCS ps cs else none

/-- Does the case-insensitive literal pattern `pat` match anywhere in the
text (Python `re.search(pat, text, re.IGNORECASE)` for a literal `pat`)? -/
def containsLit (pat : List Char) : List Char → Bool
  | [] => (stripCI pat []).isSome
  | c :: cs => (stripCI pat (c :: cs)).isSome || containsLit pat cs

/-- Index of the first occurrence of the (case-sensitive) substring `pat`
(Python `str.find` restricted to the guarded, found case). -/
def idxOfSub (pat : List Char) : List Char → Option Nat
  | [] => if pat.isEmpty then some 0 else none
  | c :: cs =>
    if (stripCS pat (c :: cs)).isSome then some 0
    else (idxOfSub pat cs).map (· + 1)

/-- Case-sensitive substring test (Python `pat in text`). -/
def containsSub (pat : List Char) (xs : List Char) : Bool :=
  (idxOfSub pat xs).isSome

/-- Search: does the position matcher `m` succeed at some suffix of the text
(including the empty suffix), i.e. Python `re.search`? -/
def searchPos (m : List Char → Bool) : List Char → Bool
  | [] => m []
  | c :: cs => m (c :: cs) || searchPos m cs

/-! ## The third prohibited pattern: `causes? (higher|lower|increased|decreased) mortality`

Matching at a position returns the remaining text together with the captured
group (in original case), mirroring Python's greedy `s?` with backtracking and
first-match alternation. -/

/-- Try the alternation `(higher|lower|increased|decreased)` (case-insensitive)
at the front of `r`, returning the rest and the captured original-case text. -/
def matchAlt (r : List Char) : Option (List Char × List Char) :=
  match stripCI "higher".data r with
  | some r2 => some (r2, r.take 6)
  | none =>
    match stripCI "lower".data r with
    | some r2 => some (r2, r.take 5)
    | none =>
      match stripCI "increased".data r with
      | some r2 => some (r2, r.take 9)
      | none =>
        match stripCI "decreased".data r with
        | some r2 => some (r2, r.take 9)
        | none => none

/-- Match `␣(alt)␣mortality` — the part of the pattern after `causes?`. -/
def matchCausesTail (r : List Char) : Option (List Char × List Char) :=
  match r with
  | c :: r2 =>
    if c == ' ' then
      match matchAlt r2 with
      | some (r3, cap) =>
        match stripCI " mortality".data r3 with
        | some r4 => some (r4, cap)
        | none => none
      | none => none
    else none
  | [] => none

/-- Match the full pattern `causes? (…) mortality` at the start of `xs`:
greedy optional `s` (try consuming `s` first, backtrack if the tail fails). -/
def matchCausesAt (xs : List Char) : Option (List Char × List Char) :=
  match stripCI "cause".data xs with
  | none => none
  | some r1 =>
    let withS : Option (List Char × List Char) :=
      match r1 with
      | c :: r2 => if ciEq 's' c then matchCausesTail r2 else none
      | [] => none
    match withS with
    | some v => some v
    | none => matchCausesTail r1

/-- Does the `causes? (…) mortality` pattern match anywhere in the text? -/
def containsCauses : List Char → Bool
  | [] => (matchCausesAt []).isSome
  | c :: cs => (matchCausesAt (c :: cs)).isSome || containsCauses cs

/-! ## `re.sub`: leftmost non-overlapping substitution

Python's `re.sub` scans left to right, replaces each non-overlapping match and
resumes after it.  All patterns in `PROHIBITED_PATTERNS` match at least one
character, so the scan consumes ≥ 1 character per step; the recursion is
driven by a fuel argument initialised to the text length, which therefore
never runs out (the fuel-0 case returns the text unchanged and is
unreachable). -/

/-- Replace every (case-insensitive, leftmost, non-overlapping) occurrence of
the literal `pat` by `repl` — `re.sub(pat, repl, text, flags=re.IGNORECASE)`
for a literal nonempty `pat`. -/
def substLitF (pat repl : List Char) : Nat → List Char → List Char
  | _, [] => []
  | 0, xs => xs
  | f + 1, c :: cs =>
    match stripCI pat (c :: cs) with
    | some rest => repl ++ substLitF pat repl f rest
    | none => c :: substLitF pat repl f cs

/-- Substitution pass (`re.sub`) for the `causes? (…) mortality` pattern, with replacement
`is associated with \1 mortality` (the captured alternative keeps its
original case). -/
def substCausesF : Nat → List Char → List Char
  | _, [] => []
  | 0, xs => xs
  | f + 1, c :: cs =>
    match matchCausesAt (c :: cs) with
    | some (rest, cap) =>
      "is associated with ".data ++ cap ++ " mortality".data ++ substCausesF f rest
    | none => c :: substCausesF f cs

/-- One literal rewrite pass over a whole text. -/
def substLit (pat repl : List Char) (xs : List Char) : List Char :=
  substLitF pat repl xs.length xs

/-- One `causes? (…) mortality` rewrite pass over a whole text. -/
def substCauses (xs : List Char) : List Char :=
  substCausesF xs.length xs

/-! ## `ReportValidator` (validator.py)

`PROHIBITED_PATTERNS` is the fixed ordered list
1. `probability of death` → `mortality rate`
2. `will die`             → `expected deaths`
3. `causes? (higher|lower|increased|decreased) mortality`
                          → `is associated with \1 mortality`
4. `the model is certain` → `the model estimates`
5. `definitely`           → `likely`
6. `100% chance`          → `high likelihood`
-/

/-- Prohibited-pattern detection: which of the six patterns occur in the
report (`re.search(pattern, report, re.IGNORECASE)` per pattern, in order).
The issue list of `validate` is abstracted to its length: one issue is
appended per found pattern, so only the count matters downstream. -/
def prohibitedCount (xs : List Char) : Nat :=
  (containsLit "probability of death".data xs).toNat +
  (containsLit "will die".data xs).toNat +
  (containsCauses xs).toNat +
  (containsLit "the model is certain".data xs).toNat +
  (containsLit "definitely".data xs).toNat +
  (containsLit "100% chance".data xs).toNat

/-- Does some prohibited pattern occur in the text? -/
def anyProhibited (xs : List Char) : Bool :=
  containsLit "probability of death".data xs ||
  containsLit "will die".data xs ||
  containsCauses xs ||
  containsLit "the model is certain".data xs ||
  containsLit "definitely".data xs ||
  containsLit "100% chance".data xs

/-! Required patterns per section.  Each section of `REQUIRED_PATTERNS` holds
exactly one regex; the three position matchers below embed them. -/

/-- Position matcher for `[+-]?\d+\.\d{3,}` (a SHAP value). -/
def shapNumAt (xs : List Char) : Bool :=
  let ys := match xs with
    | c :: cs => if c == '+' || c == '-' then cs else xs
    | [] => []
  let p := ys.span isDig
  !p.1.isEmpty &&
    (match p.2 with
     | '.' :: r2 => 3 ≤ (r2.takeWhile isDig).length
     | _ => false)

/-- Position matcher for `\d+(st|nd|rd|th) percentile`. -/
def pctOrdinalAt (xs : List Char) : Bool :=
  let p := xs.span isDig
  !p.1.isEmpty &&
    (match p.2 with
     | c1 :: c2 :: r =>
       ((c1 == 's' && c2 == 't') || (c1 == 'n' && c2 == 'd') ||
        (c1 == 'r' && c2 == 'd') || (c1 == 't' && c2 == 'h')) &&
       (" percentile".data.isPrefixOf r)
     | _ => false)

/-- Position matcher for `\d+\.\d{2}` (used after `A/E.*`). -/
def numDot2At (xs : List Char) : Bool :=
  let p := xs.span isDig
  !p.1.isEmpty &&
    (match p.2 with
     | '.' :: r2 => 2 ≤ (r2.takeWhile isDig).length
     | _ => false)

/-- After a literal `A/E`, scan forward over non-newline characters (`.*`)
looking for `\d+\.\d{2}`. -/
def scanNoNL : List Char → Bool
  | [] => numDot2At []
  | c :: cs => numDot2At (c :: cs) || (c != '\n' && scanNoNL cs)

/-- Position matcher for `A/E.*\d+\.\d{2}` (case-sensitive, as in
`validate`'s required-pattern search). -/
def aeAt (xs : List Char) : Bool :=
  match stripCS "A/E".data xs with
  | some r => scanNoNL r
  | none => false

/-- The slice `report[section_start:section_end]` computed by `validate`:
from the first occurrence of the section name up to (excluding) the next
`###` found after `section_start + 1`, or to the end when there is none. -/
def sectionText (name : List Char) (report : List Char) : List Char :=
  match idxOfSub name report with
  | none => report
  | some start =>
    match idxOfSub "###".data (report.drop (start + 1)) with
    | some i => (report.drop start).take (i + 1)
    | none => report.drop start

/-- Issues contributed by one section: when the section name occurs in the
report and its single required pattern does not match the section text, one
issue is appended. -/
def sectionIssue (name : List Char) (check : List Char → Bool) (report : List Char) : Nat :=
  if containsSub name report then
    if check (sectionText name report) then 0 else 1
  else 0

/-- Issues from all of `REQUIRED_PATTERNS`. -/
def requiredCount (report : List Char) : Nat :=
  sectionIssue "Key Risk Drivers".data (searchPos shapNumAt) report +
  sectionIssue "Population Context".data (searchPos pctOrdinalAt) report +
  sectionIssue "Model Calibration".data (searchPos aeAt) report

/-- Embeds `ReportValidator.validate`: `is_valid` is `len(issues) == 0`, where
issues are the prohibited-pattern findings followed by the missing required
patterns (the list itself is abstracted to its length). -/
def validate (report : List Char) : Bool :=
  prohibitedCount report + requiredCount report == 0

/-- Embeds `ReportValidator.auto_correct`: apply the six prohibited-pattern rewrites
sequentially, in the order of `PROHIBITED_PATTERNS`. -/
def auto_correct (xs : List Char) : List Char :=
  substLit "100% chance".data "high likelihood".data
    (substLit "definitely".data "likely".data
      (substLit "the model is certain".data "the model estimates".data
        (substCauses
          (substLit "will die".data "expected deaths".data
            (substLit "probability of death".data "mortality rate".data xs)))))

/-- String-level wrapper of `validate`. -/
def validateS (s : String) : Bool := validate s.data

/-- String-level wrapper of `auto_correct`. -/
def auto_correctS (s : String) : String := ⟨auto_correct s.data⟩

/-- String-level wrapper of `anyProhibited`. -/
def anyProhibitedS (s : String) : Bool := anyProhibited s.data

/-! ## Context Builder: `ReportGenerator._get_percentile_description`
(generator.py).  The stored percentile breakpoints of a feature are a mapping
from integer percentile keys to values; Python iterates the keys in ascending
sorted order and returns the descriptor of the first breakpoint ≥ the value.
The five descriptor families (`low` / `below average` / `typical` /
`above average` / `top`, with the fall-through `top 1% (extreme)` also a top
descriptor) are represented by the `PctTier` branch selector; the branch
structure below mirrors the `if p <= 10 / p <= 25 / p <= 75 / p <= 90 / else`
chain of the source. -/

/-- The ordinal family of a percentile descriptor. -/
inductive PctTier : Type
  | low
  | belowAvg
  | typical
  | aboveAvg
  | top
deriving DecidableEq, Repr

/-- Rank on the ordered scale low < below average < typical < above average
< top. -/
def PctTier.rank : PctTier → Nat
  | .low => 0
  | .belowAvg => 1
  | .typical => 2
  | .aboveAvg => 3
  | .top => 4

/-- Descriptor family chosen for the first matching percentile key `p`. -/
def tierOfKey (p : ℤ) : PctTier :=
  if p ≤ 10 then .low
  else if p ≤ 25 then .belowAvg
  else if p ≤ 75 then .typical
  else if p ≤ 90 then .aboveAvg
  else .top

/-- Ascending order on the percentile key of a breakpoint pair. -/
def keyLe (a b : ℤ × ℚ) : Prop := a.1 ≤ b.1

instance : DecidableRel keyLe := fun a b => inferInstanceAs (Decidable (a.1 ≤ b.1))

instance : IsTotal (ℤ × ℚ) keyLe := ⟨fun a b => le_total a.1 b.1⟩

instance : IsTrans (ℤ × ℚ) keyLe := ⟨fun _ _ _ hab hbc => le_trans hab hbc⟩

/-- Embeds `sorted([int(k) for k in pcts.keys()])`: the breakpoint pairs in
ascending key order (Python `sorted` is a stable sort, modelled by stable
insertion sort; percentile keys of a mapping are distinct anyway). -/
def sortByKey (pcts : List (ℤ × ℚ)) : List (ℤ × ℚ) :=
  pcts.insertionSort keyLe

/-- Scan the (sorted) breakpoints; first key whose breakpoint is ≥ the value
selects the tier; falling through the loop yields the `top 1% (extreme)`
descriptor, a top-tier descriptor. -/
def descTier (v : ℚ) : List (ℤ × ℚ) → PctTier
  | [] => .top
  | (p, b) :: rest => if v ≤ b then tierOfKey p else descTier v rest

/-- Embeds `ReportGenerator._get_percentile_description`, abstracted to the tier of
the returned descriptor string. -/
def get_percentile_description (pcts : List (ℤ × ℚ)) (v : ℚ) : PctTier :=
  descTier v (sortByKey pcts)

/-! ## Credibility tier (demo_structured.py, `create_report_data`) -/

/-- The credibility assigned to a matched coverage segment:
`"high" if cov_seg.get('statistics', {}).get('exposure', 0) > 50000 else
"medium"` — the argument is the segment's `exposure` statistic, absent
modelled as `none` (Python default `0`). -/
def coverage_credibility (exposure : Option ℚ) : String :=
  if 50000 < exposure.getD 0 then "high" else "medium"

/-! ## Spotlight segment construction (demo_structured.py, `create_report_data`) -/

/-- Python `int()` truncation toward zero on a rational: the quotient of
numerator by denominator, rounded toward zero. -/
def pyInt (q : ℚ) : ℤ :=
  q.num.tdiv (q.den : ℤ)

/-- Python `f"{n:03d}"` for a nonnegative integer: zero-pad to width 3. -/
def pad3 (n : Nat) : String :=
  if n < 10 then "00" ++ toString n
  else if n < 100 then "0" ++ toString n
  else toString n

/-- The `SegmentData` fields constructed for a spotlight segment. -/
structure SpotSegment : Type where
  segment_id : String
  rule_text : String
  ae_ratio : ℚ
  relative_risk : ℚ
  credibility : String
  risk_level : String
deriving DecidableEq, Repr

/-- The spotlight branch of `create_report_data`: attached only when
`relative_risk > 3`, with identifier `f"SPOT_HIGH_{int(relative_risk*10):03d}"`
(the truncated integer is nonnegative there, so the `Nat` formatting of
`pad3` coincides with Python's `d` formatting). `age` and `smoker` are the
record's `Attained_Age` and `Smoker_Status` rendered as strings. -/
def spotlight_segment (relative_risk : ℚ) (age smoker : String) : Option SpotSegment :=
  if 3 < relative_risk then
    some { segment_id := "SPOT_HIGH_" ++ pad3 (pyInt (relative_risk * 10)).toNat
           rule_text := "Attained_Age=" ++ age ++ " AND Smoker_Status=" ++ smoker
           ae_ratio := 1
           relative_risk := relative_risk
           credibility := "model_derived"
           risk_level := if 5 < relative_risk then "high_risk" else "elevated" }
  else none

/-! ## Knowledge Store: `KnowledgeBase.get_overall_rate` (knowledge.py) -/

/-- First value stored under key `k` (Python dict lookup; keys unique). -/
def lookupQ (m : List (String × ℚ)) (k : String) : Option ℚ :=
  (m.find? (fun p => p.1 == k)).map (·.2)

/-- Embeds `KnowledgeBase.get_overall_rate`: the calibration slice `overall_ae` is
`none` when loading failed; a present-but-empty mapping is falsy in Python and
also falls through.  The keys `overall_death_rate`, `overall_rate`,
`death_rate` are tried in order; the `total_actual_deaths` branch of the
source is a no-op (`pass`).  Fallback constant: `0.0097`. -/
def get_overall_rate (overall_ae : Option (List (String × ℚ))) : ℚ :=
  match overall_ae with
  | none => 97 / 10000
  | some m =>
    if m.isEmpty then 97 / 10000
    else
      match lookupQ m "overall_death_rate" with
      | some r => r
      | none =>
        match lookupQ m "overall_rate" with
        | some r => r
        | none =>
          match lookupQ m "death_rate" with
          | some r => r
          | none => 97 / 10000

/-! ## Segment Matcher (matcher.py) and the leaf-id guards of
`ReportGenerator.generate` (generator.py) -/

/-- A coverage-registry segment as read by `match_coverage`:
`seg.get('leaf_id')` may be absent (`none`); the payload is abstracted to the
segment identifier. -/
structure CovSegment : Type where
  leaf_id : Option ℤ
  segment_id : String
deriving DecidableEq, Repr

/-- Embeds `SegmentMatcher.match_coverage`: an absent or falsy registry yields
`none` (the registry is modelled as the optional `segments` list); otherwise
the first segment whose `leaf_id` equals the argument is returned. -/
def match_coverage (registry : Option (List CovSegment)) (leafId : ℤ) : Option CovSegment :=
  match registry with
  | none => none
  | some segs => segs.find? (fun s => s.leaf_id == some leafId)

/-- Embeds `SegmentMatcher.match_spotlight`: plain dict lookup in
`spotlight_details`. -/
def match_spotlight (details : List (ℤ × SpotSegment)) (leafId : ℤ) : Option SpotSegment :=
  (details.find? (fun p => p.1 == leafId)).map (·.2)

/-- Python truthiness of an `Optional[int]`: `None` and `0` are falsy. -/
def pyTruthyInt : Option ℤ → Bool
  | none => false
  | some n => n != 0

/-- Step 3 of `ReportGenerator.generate` for the coverage segment:
`self.matcher.match_coverage(coverage_leaf_id) if coverage_leaf_id else None`.
The guard is the truthiness of the argument, not a comparison with `None`. -/
def coverage_in_generate (registry : Option (List CovSegment))
    (coverage_leaf_id : Option ℤ) : Option CovSegment :=
  if pyTruthyInt coverage_leaf_id then
    match_coverage registry (coverage_leaf_id.getD 0)
  else none

/-- Step 3 of `ReportGenerator.generate` for the spotlight segment. -/
def spotlight_in_generate (details : List (ℤ × SpotSegment))
    (spotlight_leaf_id : Option ℤ) : Option SpotSegment :=
  if pyTruthyInt spotlight_leaf_id then
    match_spotlight details (spotlight_leaf_id.getD 0)
  else none

/-! ## Top-N SHAP selection (generator.py step 5, config.py) -/

/-- Embeds `REPORT_CONFIG['top_shap_features']`. -/
def top_shap_features : Nat := 5

/-- Descending order on the absolute SHAP value of an attribution item. -/
def absDesc (a b : String × ℚ) : Prop := |b.2| ≤ |a.2|

instance : DecidableRel absDesc := fun a b => inferInstanceAs (Decidable (|b.2| ≤ |a.2|))

instance : IsTotal (String × ℚ) absDesc := ⟨fun a b => le_total |b.2| |a.2|⟩

instance : IsTrans (String × ℚ) absDesc := ⟨fun _ _ _ hab hbc => le_trans hbc hab⟩

/-- Embeds `sorted(shap_values.items(), key=lambda x: abs(x[1]), reverse=True)`
(a stable sort, modelled by stable insertion sort). -/
def sortShapDesc (shap_values : List (String × ℚ)) : List (String × ℚ) :=
  shap_values.insertionSort absDesc

/-- Step 5 of `ReportGenerator.generate`: the sorted attribution items,
truncated to `REPORT_CONFIG['top_shap_features']`. -/
def sorted_shap (shap_values : List (String × ℚ)) : List (String × ℚ) :=
  (sortShapDesc shap_values).take top_shap_features

/-! ## Generation Client: `LLMClient.generate_insights` (llm.py, schemas.py)

The external effects (the structured-output call, the raw generation call of
the fallback, and `json.loads` + `ActuarialInsights(**data)`) are modelled as
oracle fields of an environment; an `Except.error` value stands for the
exception the call would raise inside the `try` blocks.  The client itself is
a total Lean function of the environment: the embedding has no failure path,
matching "never raises to its caller". -/

/-- Embeds `SHAPExplanation` (schemas.py). -/
structure SHAPExplanation : Type where
  feature : String
  value : String
  direction : String
  explanation : String
deriving DecidableEq, Repr

/-- Embeds `ActuarialInsights` (schemas.py): the full result schema of
`generate_insights`.  Note its fields: there is no flag of any kind marking
live versus fallback output. -/
structure ActuarialInsights : Type where
  summary : String
  risk_interpretation : String
  shap_explanations : List SHAPExplanation
  calibration_note : String
  segment_insight : Option String
  recommendations : List String
deriving DecidableEq, Repr

/-- Embeds `LLMClient._mock_insights`: the fixed, statically-defined fallback object
(its `context` argument is ignored). -/
def mock_insights : ActuarialInsights :=
  { summary := "此保單的預測死亡率顯著高於整體人群平均。主要風險因子為高齡及吸菸狀態。建議進行進一步精算審查。"
    risk_interpretation := "根據模型預測，此保單的 Relative Risk 顯示風險水平高於平均。這與保單持有人的年齡和風險特徵相關。"
    shap_explanations :=
      [ { feature := "Attained_Age", value := "75", direction := "增加"
          explanation := "高齡是死亡率上升的主要驅動因子" },
        { feature := "Smoker_Status", value := "S", direction := "增加"
          explanation := "吸菸與較高死亡率相關" } ]
    calibration_note := "模型整體 A/E Ratio 接近 1.0，表示模型校準良好。"
    segment_insight := none
    recommendations :=
      [ "建議對高風險區段進行額外核保審查",
        "建議持續監控此類保單的經驗發展" ] }

/-- Left brace character (written via its code point). -/
def lbrace : Char := Char.ofNat 123

/-- Right brace character (written via its code point). -/
def rbrace : Char := Char.ofNat 125

/-- Text after the first occurrence of the substring `pat` (empty when `pat`
does not occur; only used under a containment guard). -/
def dropThroughSub (pat : List Char) : List Char → List Char
  | [] => []
  | c :: cs =>
    match stripCS pat (c :: cs) with
    | some rest => rest
    | none => dropThroughSub pat cs

/-- Text before the first occurrence of the substring `pat` (all of it when
`pat` does not occur). -/
def takeUntilSub (pat : List Char) : List Char → List Char
  | [] => []
  | c :: cs =>
    if (stripCS pat (c :: cs)).isSome then []
    else c :: takeUntilSub pat cs

/-- Index of the first occurrence of a character (Python `str.index`,
`none` = `ValueError`). -/
def firstIdxChar (c : Char) : List Char → Option Nat
  | [] => none
  | d :: ds => if d == c then some 0 else (firstIdxChar c ds).map (· + 1)

/-- Index of the last occurrence of a character (Python `str.rindex`,
`none` = `ValueError`). -/
def lastIdxChar (c : Char) (xs : List Char) : Option Nat :=
  (firstIdxChar c xs.reverse).map (fun i => xs.length - 1 - i)

/-- The JSON-extraction logic of `LLMClient._fallback_generate`:
`content.split("```json")[1].split("```")[0]` when a fenced block marker is
present (the segment after the first ```` ```json ```` up to the next
```` ``` ````, which is also where the next ```` ```json ````, if any, would
start); otherwise the slice from the first `{` to one past the last `}`
(`str.rindex` raising when `}` is absent); otherwise
`raise ValueError("No JSON found in response")`.  `Except.error` marks the
raised exceptions, caught by the enclosing `try`. -/
def extract_json (content : List Char) : Except Unit (List Char) :=
  if containsSub "```json".data content then
    Except.ok (takeUntilSub "```".data (dropThroughSub "```json".data content))
  else if (firstIdxChar lbrace content).isSome then
    match lastIdxChar rbrace content with
    | some e =>
      let s := (firstIdxChar lbrace content).getD 0
      Except.ok ((content.drop s).take (e + 1 - s))
    | none => Except.error ()
  else Except.error ()

/-- The external-call outcomes of one `generate_insights` request. -/
structure LLMEnv : Type where
  /-- Models `self._initialized`. -/
  initialized : Bool
  /-- Models that `self.client` is set (truthy). -/
  hasClient : Bool
  /-- Outcome of `structured_llm.invoke(full_prompt)` with schema validation. -/
  structuredCall : Except Unit ActuarialInsights
  /-- Outcome of `self.client.invoke(prompt)` in `_fallback_generate`,
  as raw response text. -/
  rawCall : Except Unit (List Char)
  /-- Outcome of `json.loads(json_str)` + `ActuarialInsights(**data)`. -/
  jsonParse : List Char → Except Unit ActuarialInsights

/-- Embeds `LLMClient._fallback_generate`: raw generation, JSON extraction, parse;
any exception in the `try` yields the static mock object. -/
def fallback_generate (env : LLMEnv) : ActuarialInsights :=
  match env.rawCall with
  | .error _ => mock_insights
  | .ok content =>
    match extract_json content with
    | .error _ => mock_insights
    | .ok js =>
      match env.jsonParse js with
      | .error _ => mock_insights
      | .ok ins => ins

/-- Embeds `LLMClient.generate_insights`: uninitialised client → mock; structured
call → its result; structured failure → `_fallback_generate`. -/
def generate_insights (env : LLMEnv) : ActuarialInsights :=
  if !env.initialized || !env.hasClient then mock_insights
  else
    match env.structuredCall with
    | .ok r => r
    | .error _ => fallback_generate env

/-! ## Legacy rule-based segment membership
(`KnowledgeBase._check_condition`, rag_engine.py / rag_retriever.py)

The source evaluates the condition string with Python's general-purpose
`eval(condition, {}, data_point)` and maps any exception to `False`.  The
embedding represents a condition by the abstract syntax of the Python
expression the string denotes, and `pyEval` gives Python's evaluation
semantics for the fragment needed here (literals, name lookup in the local
scope, comparisons, short-circuit `and` / `or`); `none` models a raised
exception (`NameError`, `TypeError`, …). -/

/-- A Python value of the fragment. -/
inductive PyVal : Type
  | int (n : ℤ)
  | str (s : String)
  | bool (b : Bool)
deriving DecidableEq, Repr

/-- Python truthiness. -/
def pyTruthyVal : PyVal → Bool
  | .int n => n != 0
  | .str s => !s.isEmpty
  | .bool b => b

/-- The integer a value contributes to arithmetic comparison (`bool` is an
`int` subtype in Python: `True == 1`); strings do not. -/
def pyAsInt : PyVal → Option ℤ
  | .int n => some n
  | .bool b => some (if b then 1 else 0)
  | .str _ => none

/-- The six comparison operators. -/
inductive PyCmp : Type
  | lt | le | gt | ge | eq | ne
deriving DecidableEq, Repr

/-- Integer comparison. -/
def pyCmpInt (op : PyCmp) (x y : ℤ) : Bool :=
  match op with
  | .lt => decide (x < y)
  | .le => decide (x ≤ y)
  | .gt => decide (y < x)
  | .ge => decide (y ≤ x)
  | .eq => x == y
  | .ne => x != y

/-- Lexicographic (code-point) strict order on strings, as Python compares
strings. -/
def lexLt : List Char → List Char → Bool
  | [], [] => false
  | [], _ :: _ => true
  | _ :: _, [] => false
  | a :: xs, b :: ys =>
    if a.toNat < b.toNat then true
    else if a.toNat == b.toNat then lexLt xs ys
    else false

/-- Python comparison semantics for the fragment: int-like values compare
arithmetically, strings compare lexicographically, cross-type `==` / `!=`
are `False` / `True`, and cross-type ordering raises `TypeError` (`none`). -/
def pyCmpVals (op : PyCmp) (a b : PyVal) : Option PyVal :=
  match pyAsInt a, pyAsInt b with
  | some x, some y => some (.bool (pyCmpInt op x y))
  | _, _ =>
    match a, b with
    | .str s, .str t =>
      some (.bool (match op with
        | .lt => lexLt s.data t.data
        | .le => !lexLt t.data s.data
        | .gt => lexLt t.data s.data
        | .ge => !lexLt s.data t.data
        | .eq => s == t
        | .ne => s != t))
    | _, _ =>
      match op with
      | .eq => some (.bool false)
      | .ne => some (.bool true)
      | _ => none

/-- Abstract syntax of the Python-expression fragment a condition string
denotes. -/
inductive PyExpr : Type
  | lit (v : PyVal)
  | name (x : String)
  | cmp (op : PyCmp) (a b : PyExpr)
  | band (a b : PyExpr)
  | bor (a b : PyExpr)
deriving DecidableEq, Repr

/-- Python evaluation of the fragment over the local scope `data_point`
(`eval(condition, {}, data_point)`); `none` models a raised exception. -/
def pyEval : PyExpr → List (String × PyVal) → Option PyVal
  | .lit v, _ => some v
  | .name x, env => (env.find? (fun p => p.1 == x)).map (·.2)
  | .cmp op a b, env => do
    let va ← pyEval a env
    let vb ← pyEval b env
    pyCmpVals op va vb
  | .band a b, env => do
    let va ← pyEval a env
    if pyTruthyVal va then pyEval b env else some va
  | .bor a b, env => do
    let va ← pyEval a env
    if pyTruthyVal va then some va else pyEval b env

/-- Embeds `KnowledgeBase._check_condition`: `eval` the condition with the feature
record as local scope; any exception yields `False`. -/
def check_condition (cond : PyExpr) (data : List (String × PyVal)) : PyVal :=
  (pyEval cond data).getD (.bool false)

/-- Segment membership as decided by `find_relevant_context` /
`get_query_context`: the truthiness of `_check_condition`'s result. -/
def segment_matches (cond : PyExpr) (data : List (String × PyVal)) : Bool :=
  pyTruthyVal (check_condition cond data)

/-- Modelled from the spec: an operand admitted by the restricted grammar —
a whitelisted field name or a literal. -/
def grammarOperand (wl : List String) : PyExpr → Bool
  | .lit _ => true
  | .name f => wl.contains f
  | _ => false

/-- Modelled from the spec: the restricted grammar — comparison operators
over whitelisted field names and literals, combined with AND/OR; anything
else is outside the grammar.  (The repository has no such parser; this
definition follows §4.2 and §9 of the spec.) -/
def inGrammar (wl : List String) : PyExpr → Bool
  | .cmp _ a b => grammarOperand wl a && grammarOperand wl b
  | .band a b => inGrammar wl a && inGrammar wl b
  | .bor a b => inGrammar wl a && inGrammar wl b
  | _ => false

/-- Modelled from the spec: atom evaluation of the dedicated interpreter —
whitelisted field lookup or literal; anything else (including a missing
field) is rejected. -/
def atomValue (wl : List String) (data : List (String × PyVal)) : PyExpr → Option PyVal
  | .lit v => some v
  | .name f =>
    if wl.contains f then (data.find? (fun p => p.1 == f)).map (·.2) else none
  | _ => none

/-- Modelled from the spec: the dedicated small interpreter of the restricted
grammar.  It evaluates comparisons over whitelisted fields and literals,
combines them with AND/OR, and treats anything outside the grammar — and any
malformed or non-evaluable condition — as "no match". -/
def restricted_eval (wl : List String) (data : List (String × PyVal)) : PyExpr → Bool
  | .cmp op a b =>
    match atomValue wl data a, atomValue wl data b with
    | some va, some vb =>
      match pyCmpVals op va vb with
      | some v => pyTruthyVal v
      | none => false
    | _, _ => false
  | .band a b => restricted_eval wl data a && restricted_eval wl data b
  | .bor a b => restricted_eval wl data a || restricted_eval wl data b
  | _ => false

/-- The whitelisted feature fields of the legacy rule mode (the fields of the
repository's sample input record). -/
def demoWhitelist : List String :=
  ["issue_age", "duration", "smoker_status", "preferred_class", "face_amount"]

/-!
# Theorems

Helper lemmas first, then one theorem per claim (with witnesses and
counterexamples where applicable).
-/

/-! ## Validator lemmas -/

/-- A literal rewrite pass leaves a text without occurrences unchanged. -/
theorem substLitF_of_not_contains (pat repl : List Char) :
    ∀ (f : Nat) (xs : List Char), containsLit pat xs = false →
      substLitF pat repl f xs = xs := by
  intro f
  induction f with
  | zero =>
    intro xs _
    cases xs <;> rfl
  | succ f ih =>
    intro xs h
    cases xs with
    | nil => rfl
    | cons c cs =>
      unfold containsLit at h
      rw [Bool.or_eq_false_iff] at h
      obtain ⟨h1, h2⟩ := h
      cases hst : stripCI pat (c :: cs) with
      | some rest => rw [hst] at h1; simp at h1
      | none =>
        show substLitF pat repl (f + 1) (c :: cs) = c :: cs
        unfold substLitF
        rw [hst, ih cs h2]

/-- Version of the previous lemma for `substLit`. -/
theorem substLit_of_not_contains (pat repl : List Char) (xs : List Char)
    (h : containsLit pat xs = false) : substLit pat repl xs = xs :=
  substLitF_of_not_contains pat repl xs.length xs h

/-- A `causes?…` rewrite pass leaves a text without occurrences unchanged. -/
theorem substCausesF_of_not_contains :
    ∀ (f : Nat) (xs : List Char), containsCauses xs = false →
      substCausesF f xs = xs := by
  intro f
  induction f with
  | zero =>
    intro xs _
    cases xs <;> rfl
  | succ f ih =>
    intro xs h
    cases xs with
    | nil => rfl
    | cons c cs =>
      unfold containsCauses at h
      rw [Bool.or_eq_false_iff] at h
      obtain ⟨h1, h2⟩ := h
      cases hst : matchCausesAt (c :: cs) with
      | some rest => rw [hst] at h1; simp at h1
      | none =>
        show substCausesF (f + 1) (c :: cs) = c :: cs
        unfold substCausesF
        rw [hst, ih cs h2]

/-- Version of the previous lemma for `substCauses`. -/
theorem substCauses_of_not_contains (xs : List Char)
    (h : containsCauses xs = false) : substCauses xs = xs :=
  substCausesF_of_not_contains xs.length xs h

/-- Application of `auto_correct` does not change a text in which no prohibited pattern
occurs. -/
theorem auto_correct_of_clean (xs : List Char) (h : anyProhibited xs = false) :
    auto_correct xs = xs := by
  unfold anyProhibited at h
  rw [Bool.or_eq_false_iff] at h
  obtain ⟨h', h6⟩ := h
  rw [Bool.or_eq_false_iff] at h'
  obtain ⟨h', h5⟩ := h'
  rw [Bool.or_eq_false_iff] at h'
  obtain ⟨h', h4⟩ := h'
  rw [Bool.or_eq_false_iff] at h'
  obtain ⟨h', h3⟩ := h'
  rw [Bool.or_eq_false_iff] at h'
  obtain ⟨h1, h2⟩ := h'
  unfold auto_correct
  rw [substLit_of_not_contains _ _ _ h1, substLit_of_not_contains _ _ _ h2,
    substCauses_of_not_contains _ h3, substLit_of_not_contains _ _ _ h4,
    substLit_of_not_contains _ _ _ h5, substLit_of_not_contains _ _ _ h6]

/-! ## Claim C4 -/

/-- C4 counterexample: the universal part of the claim is false.  On the text
`"will diwill die"`, `auto_correct` replaces the second `will die`, and the
inserted replacement `expected deaths` recreates the phrase `will die`
across the boundary (`will di` + `expected…`), so re-running the
prohibited-pattern detection on the corrected text still finds a prohibited
match. -/
theorem auto_correct_leaves_prohibited_match :
    anyProhibitedS (auto_correctS "will diwill die") = true := by decide

/-- C4 (amended): the scenario part of the claim holds: a text containing the
phrase `will die` is reported invalid by `validate`; `auto_correct` replaces
the phrase with `expected deaths`; and re-running the detection of that
specific pattern on the corrected text finds no match.  (The universal
"no prohibited matches after auto_correct for every input" part is refuted by
`auto_correct_leaves_prohibited_match`.) -/
theorem validator_will_die_scenario :
    validateS "The policyholder will die within a year." = false ∧
    auto_correctS "The policyholder will die within a year." =
      "The policyholder expected deaths within a year." ∧
    containsLit "will die".data
      (auto_correctS "The policyholder will die within a year.").data = false := by
  refine ⟨by decide, by decide, by decide⟩

/-! ## Claim C5 -/

/-- C5 counterexample: `auto_correct` is not idempotent.  On
`"will diwill die"` the first application yields `"will diexpected deaths"`
(which again contains `will die`), and a second application changes the text
again. -/
theorem auto_correct_not_idempotent :
    auto_correctS (auto_correctS "will diwill die") ≠
      auto_correctS "will diwill die" := by decide

/-- C5 (amended): `auto_correct` is idempotent on every input text whose
corrected form is free of prohibited matches — in particular whenever a
single application clears all prohibited patterns — but not on all inputs
(see `auto_correct_not_idempotent`). -/
theorem auto_correct_idempotent_on_clean (s : String)
    (h : anyProhibitedS (auto_correctS s) = false) :
    auto_correctS (auto_correctS s) = auto_correctS s :=
  congrArg String.mk (auto_correct_of_clean _ h)

/-- Witness for `auto_correct_idempotent_on_clean` at the concrete text
`"The policyholder will die soon."`. -/
theorem auto_correct_idempotent_on_clean_witness :
    anyProhibitedS (auto_correctS "The policyholder will die soon.") = false ∧
    auto_correctS (auto_correctS "The policyholder will die soon.") =
      auto_correctS "The policyholder will die soon." :=
  ⟨by decide, auto_correct_idempotent_on_clean _ (by decide)⟩

/-! ## Percentile-tier lemmas -/

/-- Every tier rank is at most the rank of `top`. -/
theorem PctTier.rank_le_four (t : PctTier) : t.rank ≤ 4 := by
  cases t <;> simp [PctTier.rank]

/-- The tier selected by a percentile key is monotone in the key. -/
theorem tierOfKey_mono {p q : ℤ} (h : p ≤ q) :
    (tierOfKey p).rank ≤ (tierOfKey q).rank := by
  unfold tierOfKey
  split_ifs <;> simp_all [PctTier.rank] <;> omega

/-- Scanning breakpoints whose keys are all ≥ `p` yields a tier of rank at
least that of `tierOfKey p`. -/
theorem descTier_rank_lb (p : ℤ) (v : ℚ) :
    ∀ l : List (ℤ × ℚ), (∀ x ∈ l, p ≤ x.1) →
      (tierOfKey p).rank ≤ (descTier v l).rank := by
  intro l
  induction l with
  | nil =>
    intro _
    simpa [descTier] using PctTier.rank_le_four (tierOfKey p)
  | cons x rest ih =>
    intro hall
    obtain ⟨q, b⟩ := x
    unfold descTier
    by_cases hv : v ≤ b
    · simpa [hv] using tierOfKey_mono (hall (q, b) (by simp))
    · simpa [hv] using ih (fun y hy => hall y (List.mem_cons_of_mem _ hy))

/-- On a key-sorted breakpoint list, the scanned tier is monotone in the
value. -/
theorem descTier_mono (v1 v2 : ℚ) (h12 : v1 ≤ v2) :
    ∀ l : List (ℤ × ℚ), l.Pairwise keyLe →
      (descTier v1 l).rank ≤ (descTier v2 l).rank := by
  intro l
  induction l with
  | nil => intro _; exact le_refl _
  | cons x rest ih =>
    intro hp
    obtain ⟨q, b⟩ := x
    rw [List.pairwise_cons] at hp
    obtain ⟨hq, hrest⟩ := hp
    unfold descTier
    by_cases h2 : v2 ≤ b
    · have h1 : v1 ≤ b := le_trans h12 h2
      simp [h1, h2]
    · by_cases h1 : v1 ≤ b
      · simpa [h1, h2] using descTier_rank_lb q v2 rest (fun y hy => hq y hy)
      · simpa [h1, h2] using ih hrest

/-! ## Claim C6 -/

/-- C6: for a numerical feature whose stored percentile breakpoints are
non-decreasing (in ascending key order, as `_get_percentile_description`
iterates them), the tier of the emitted percentile description is monotone in
the feature value on the scale low < below average < typical < above average
< top. -/
theorem percentile_tier_monotone (pcts : List (ℤ × ℚ)) (v1 v2 : ℚ)
    (hv : (sortByKey pcts).Pairwise (fun a b => a.2 ≤ b.2)) (h12 : v1 ≤ v2) :
    (get_percentile_description pcts v1).rank ≤
      (get_percentile_description pcts v2).rank := by
  unfold get_percentile_description
  exact descTier_mono v1 v2 h12 (sortByKey pcts)
    (List.sorted_insertionSort keyLe pcts)

/-- Witness for `percentile_tier_monotone` on concrete breakpoints
`1 ↦ 30, 50 ↦ 60, 99 ↦ 95` and values `40 ≤ 70`. -/
theorem percentile_tier_monotone_witness :
    (sortByKey [((1 : ℤ), (30 : ℚ)), (50, 60), (99, 95)]).Pairwise
      (fun a b => a.2 ≤ b.2) ∧
    (get_percentile_description [((1 : ℤ), (30 : ℚ)), (50, 60), (99, 95)] 40).rank ≤
      (get_percentile_description [((1 : ℤ), (30 : ℚ)), (50, 60), (99, 95)] 70).rank :=
  ⟨by decide, percentile_tier_monotone _ 40 70 (by decide) (by decide)⟩

/-! ## Claim C3 -/

/-- C3: the credibility computed by `create_report_data` takes only the two
values `high` (exposure > 50,000) and `medium` (everything else).  In
particular a segment with exposure 5,000 — below the documented 10,000
low-credibility threshold — is assigned `medium`, never `low`: the
three-tier scheme of the claim (and of the table in prompt_builder.py) is
not implemented. -/
theorem credibility_has_no_low_tier :
    coverage_credibility (some 5000) = "medium" ∧
    coverage_credibility (some 5000) ≠ "low" ∧
    ∀ e, coverage_credibility e = "high" ∨ coverage_credibility e = "medium" := by
  refine ⟨by decide, by decide, ?_⟩
  intro e
  unfold coverage_credibility
  by_cases h : (50000 : ℚ) < e.getD 0
  · exact Or.inl (by rw [if_pos h])
  · exact Or.inr (by rw [if_neg h])

/-! ## Claim C7 -/

/-- C7: a record with relative risk 6.08 (= 608/100) under the spotlight
threshold `RR > 3` gets a spotlight segment attached, with identifier exactly
`SPOT_HIGH_060` — `SPOT_HIGH_` followed by `int(6.08 * 10) = 60` zero-padded
to three digits. -/
theorem spotlight_id_for_rr_608 :
    (spotlight_segment (mkRat 608 100) "88" "S").isSome = true ∧
    (spotlight_segment (mkRat 608 100) "88" "S").map SpotSegment.segment_id =
      some "SPOT_HIGH_060" := by
  have hmul : mkRat 608 100 * 10 = mkRat 304 5 := by
    rw [Rat.mkRat_eq_div, Rat.mkRat_eq_div]
    norm_num
  have hgt : (3 : ℚ) < mkRat 608 100 := by decide
  constructor
  · unfold spotlight_segment
    rw [if_pos hgt]
    rfl
  · unfold spotlight_segment
    rw [if_pos hgt, hmul]
    decide

/-! ## Claim C8 -/

/-- C8: when the calibration slice failed to load, `get_overall_rate` returns
the fallback constant 0.0097 exactly; when calibration is present with the
rate key `overall_death_rate`, it returns that stored rate. -/
theorem get_overall_rate_fallback_and_key :
    get_overall_rate none = 97 / 10000 ∧
    ∀ (m : List (String × ℚ)) (r : ℚ),
      lookupQ m "overall_death_rate" = some r → get_overall_rate (some m) = r := by
  refine ⟨rfl, ?_⟩
  intro m r h
  match m with
  | [] => simp [lookupQ] at h
  | p :: rest => simp [get_overall_rate, h]

/-- Witness for `get_overall_rate_fallback_and_key` with the calibration
mapping `overall_death_rate ↦ 2`. -/
theorem get_overall_rate_fallback_and_key_witness :
    lookupQ [("overall_death_rate", 2)] "overall_death_rate" = some 2 ∧
    get_overall_rate (some [("overall_death_rate", 2)]) = 2 :=
  ⟨by decide, get_overall_rate_fallback_and_key.2 _ 2 (by decide)⟩

/-! ## Claim C9 -/

/-- C9: for every attribution map, the report's per-feature attribution list
is the attribution items sorted by descending absolute value (a permutation
of the input, pairwise descending), truncated to the configured
`top_shap_features = 5`; every kept item has absolute attribution at least
that of every dropped item. -/
theorem top_shap_bounded_and_ranked (shap_values : List (String × ℚ)) :
    (sorted_shap shap_values).length ≤ top_shap_features ∧
    (sortShapDesc shap_values).Perm shap_values ∧
    (sorted_shap shap_values).Pairwise absDesc ∧
    ∀ a ∈ sorted_shap shap_values,
      ∀ b ∈ (sortShapDesc shap_values).drop top_shap_features, |b.2| ≤ |a.2| := by
  have hsorted : (sortShapDesc shap_values).Pairwise absDesc :=
    List.sorted_insertionSort absDesc shap_values
  have hsplit : (sortShapDesc shap_values).Pairwise absDesc →
      ((sortShapDesc shap_values).take top_shap_features ++
        (sortShapDesc shap_values).drop top_shap_features).Pairwise absDesc := by
    rw [List.take_append_drop]
    exact id
  refine ⟨List.length_take_le _ _, List.perm_insertionSort absDesc shap_values,
    hsorted.sublist (List.take_sublist _ _), ?_⟩
  intro a ha b hb
  exact (List.pairwise_append.mp (hsplit hsorted)).2.2 a ha b hb

/-! ## Claim C10 -/

/-- C10: in `ReportGenerator.generate`, a leaf id of `0` is treated exactly
like `None`: the truthiness guard skips the lookup and the matched segment is
`none` for every registry — even though `0` is a perfectly valid leaf id for
`match_coverage` and `match_spotlight`, as the two concrete lookups show. -/
theorem leaf_id_zero_treated_as_none :
    (∀ registry, coverage_in_generate registry (some 0) = none ∧
      coverage_in_generate registry none = none) ∧
    (∀ details, spotlight_in_generate details (some 0) = none ∧
      spotlight_in_generate details none = none) ∧
    match_coverage (some [(⟨some 0, "SEG_000"⟩ : CovSegment)]) 0 =
      some (⟨some 0, "SEG_000"⟩ : CovSegment) ∧
    match_spotlight
      [((0 : ℤ),
        (⟨"SPOT_000", "r", 1, 4, "model_derived", "elevated"⟩ : SpotSegment))] 0 =
      some (⟨"SPOT_000", "r", 1, 4, "model_derived", "elevated"⟩ : SpotSegment) := by
  exact ⟨fun _ => ⟨rfl, rfl⟩, fun _ => ⟨rfl, rfl⟩, by decide, by decide⟩

/-! ## Claim C1 -/

/-- C1 counterexample: the result of `generate_insights` carries no flag
distinguishing live from fallback output (the `ActuarialInsights` schema has
no such field): a request whose structured call succeeds and a request whose
calls all fail can return identical results, so no function of the result can
tell them apart. -/
theorem generate_insights_no_flag :
    generate_insights
      { initialized := true, hasClient := true,
        structuredCall := Except.ok mock_insights,
        rawCall := Except.error (), jsonParse := fun _ => Except.error () } =
    generate_insights
      { initialized := true, hasClient := true,
        structuredCall := Except.error (),
        rawCall := Except.error (), jsonParse := fun _ => Except.error () } ∧
    (Except.ok mock_insights : Except Unit ActuarialInsights) ≠ Except.error () := by
  exact ⟨rfl, fun h => nomatch h⟩

/-- C1 (amended): `generate_insights` is a total function of the request
environment — the embedding has no failure path, so the client never raises —
and when the structured-output call fails it runs the JSON-extraction
fallback; when the fallback transport also fails it returns exactly the
static `mock_insights` object.  No flag on the result marks fallback output
(see `generate_insights_no_flag`). -/
theorem generate_insights_fallback_chain (env : LLMEnv)
    (hi : env.initialized = true) (hc : env.hasClient = true)
    (hs : env.structuredCall = Except.error ()) :
    generate_insights env = fallback_generate env ∧
    (env.rawCall = Except.error () → generate_insights env = mock_insights) := by
  have hmain : generate_insights env = fallback_generate env := by
    unfold generate_insights
    rw [hi, hc, hs]
    simp
  refine ⟨hmain, ?_⟩
  intro hraw
  rw [hmain]
  unfold fallback_generate
  rw [hraw]

/-- Witness for `generate_insights_fallback_chain`: an environment whose
structured call and fallback transport both fail yields the static fallback
object. -/
theorem generate_insights_fallback_chain_witness :
    generate_insights
      { initialized := true, hasClient := true,
        structuredCall := Except.error (),
        rawCall := Except.error (), jsonParse := fun _ => Except.error () } =
      mock_insights :=
  (generate_insights_fallback_chain _ rfl rfl rfl).2 rfl

/-! ## Claim C2 -/

/-- C2 counterexample: membership is not decided by an interpreter of the
restricted grammar.  The condition string `1` — a bare literal, rejected by
the restricted grammar and by the spec's dedicated interpreter — is evaluated
by the code's general-purpose `eval` to the truthy value `1`, so the record
is declared a member of the segment. -/
theorem check_condition_accepts_outside_grammar :
    segment_matches (PyExpr.lit (PyVal.int 1)) [] = true ∧
    inGrammar demoWhitelist (PyExpr.lit (PyVal.int 1)) = false ∧
    restricted_eval demoWhitelist [] (PyExpr.lit (PyVal.int 1)) = false := by
  decide

/-- C2 (amended): membership is decided by Python's general-purpose `eval`
over the condition with the feature record as local scope (as the code's own
WARNING acknowledges); what does hold is that any condition whose evaluation
raises (missing fields, type errors, …) is treated as "no match", never as an
error. -/
theorem check_condition_error_is_no_match (cond : PyExpr)
    (data : List (String × PyVal)) (h : pyEval cond data = none) :
    segment_matches cond data = false := by
  unfold segment_matches check_condition
  rw [h]
  rfl

/-- Witness for `check_condition_error_is_no_match`: a condition referring to
a missing field raises `NameError` under `eval` and is treated as
"no match". -/
theorem check_condition_error_is_no_match_witness :
    pyEval (PyExpr.name "missing_field") [] = none ∧
    segment_matches (PyExpr.name "missing_field") [] = false :=
  ⟨by decide, check_condition_error_is_no_match _ _ (by decide)⟩

end SOA
